import Mathlib

/-!
Verification of the game-design-review agent coordination layer

Shallow embedding of the coordination and memory-hook logic of the
`accelerate-game-design-reviews-genai-agents` repository:

* the orchestrator (`game_analyst_agent.py`): delegation tools
  `get_lore_agent` / `get_gameplay_agent` / `get_strategy_agent`, the
  module-level `toolmetrics` accumulator, and the entrypoint's response shaping;
* the memory hooks (`memories.py`): `ShortTermMemoryHook.on_agent_initialized`,
  `ShortTermMemoryHook.on_message_added`, `LTMemoryHookProvider.save_memories`;
* the specialist entrypoints (`lore_agent.py`, `gameplay_agent.py`,
  `strategy_agent.py`): knowledge-base client lifecycle, long-term memory
  configuration, and response shaping.

The external collaborators (the Bedrock model call, the knowledge-base
retrieval service, the AgentCore memory store, the network transport) are
modelled as opaque oracle inputs; the Python values exchanged over the
invocation boundary are modelled by an inductive `PyVal` type mirroring the
decoded JSON, and Python exceptions by `Except String`.
-/

/-- Python truthiness of an optional string: `None` and `""` are falsy.
Used wherever the source tests `if not x:` on a string-or-None value. -/
def truthy : Option String → Bool
  | none => false
  | some s => !s.isEmpty

/-- A decoded Python/JSON value as seen after `json.loads` of an invocation
response body: a string, a dict, or a list (the cases the agents produce;
`metrics` summaries are dicts whose contents this layer never inspects). -/
inductive PyVal : Type where
  | str (s : String)
  | dict (fields : List (String × PyVal))
  | list (xs : List PyVal)

/-- Python subscripting `v[key]` on a decoded value: a `KeyError` on a dict
without the key, a `TypeError` on a non-dict (e.g. indexing a plain string
with a string key). Both are modelled as raised exceptions. -/
def PyVal.index (v : PyVal) (key : String) : Except String PyVal :=
  match v with
  | .dict fields =>
    match fields.lookup key with
    | some x => .ok x
    | none => .error ("KeyError: " ++ key)
  | _ => .error "TypeError: string indices must be integers"

/-- Whether a Python-exception-carrying computation completed normally. -/
def exOk {α : Type} : Except String α → Bool
  | .ok _ => true
  | .error _ => false

/-!
Delegation tools of the orchestrator

`game_analyst_agent.py` (both variants) defines three identical delegation
tools; `get_lore_agent` is representative:

    lore_agent_arn = get_agent_arn("lore_agent")
    response = json.loads(invoke_agent_with_boto3(lore_agent_arn, user_query=payload))
    toolmetrics.append(response['metrics'])
    return response['response']

The remote call plus `json.loads` is modelled by an `InvokeOutcome`: either
the decoded body, or a raised exception (ARN resolution failure, network or
timeout error from `invoke_agent_with_boto3`, or a `json.loads` decode error
— in all of these the tool body raises before touching `toolmetrics`).
-/

/-- Outcome of `json.loads(invoke_agent_with_boto3(arn, user_query=payload))`
as observed inside a delegation tool. -/
inductive InvokeOutcome : Type where
  | raised (e : String)
  | body (v : PyVal)

/-- The shared body of `get_lore_agent` / `get_gameplay_agent` /
`get_strategy_agent` after the remote call: appends `response['metrics']` to
the `toolmetrics` accumulator, then returns `response['response']`.  The
result is the new accumulator paired with the tool's normal return value or
raised exception, in the statement order of the source (the append happens
before the `response['response']` lookup, so a dict carrying `metrics` but
not `response` appends and then raises). -/
def delegationTool (outcome : InvokeOutcome) (toolmetrics : List PyVal) :
    List PyVal × Except String PyVal :=
  match outcome with
  | .raised e => (toolmetrics, .error e)
  | .body v =>
    match v.index "metrics" with
    | .error e => (toolmetrics, .error e)
    | .ok m =>
      match v.index "response" with
      | .error e => (toolmetrics ++ [m], .error e)
      | .ok r => (toolmetrics ++ [m], .ok r)

/-- A delegation call completed successfully: the tool returned normally. -/
def delegationSucceeds (outcome : InvokeOutcome) : Bool :=
  exOk (delegationTool outcome []).2

/-- The metrics record a delegation call appends to the accumulator, when it
appends one (the `metrics` lookup succeeded; the `response` lookup may still
fail afterwards). -/
def appendedMetric (outcome : InvokeOutcome) : Option PyVal :=
  match outcome with
  | .raised _ => none
  | .body v =>
    match v.index "metrics" with
    | .ok m => some m
    | .error _ => none

/-- The metrics record of a delegation call that completed successfully. -/
def successMetric (outcome : InvokeOutcome) : Option PyVal :=
  if delegationSucceeds outcome then appendedMetric outcome else none

/-- Replies actually produced by the specialist entrypoints of this system:
either the tool body raised before decoding (transport / resolution / decode
failure), or the body is the specialist failure shape (a plain string), or
the body is the specialist success envelope holding both `metrics` and
`response`.  Rules out a partial envelope with `metrics` but no `response`,
which no specialist entrypoint emits. -/
def specialistShaped (outcome : InvokeOutcome) : Prop :=
  match outcome with
  | .raised _ => True
  | .body v => exOk (v.index "metrics") = true → exOk (v.index "response") = true

instance (o : InvokeOutcome) : Decidable (specialistShaped o) := by
  unfold specialistShaped
  cases o with
  | raised e => exact inferInstanceAs (Decidable True)
  | body v => exact inferInstanceAs (Decidable (_ → _))

/-- Running the sequence of delegation calls the orchestrating model chose to
make during one turn, threading the `toolmetrics` accumulator through.  (The
model chooses the calls sequentially; each tool invocation's effect on the
accumulator is `delegationTool`.) -/
def runDelegations (outcomes : List InvokeOutcome) (toolmetrics : List PyVal) :
    List PyVal :=
  match outcomes with
  | [] => toolmetrics
  | o :: rest => runDelegations rest (delegationTool o toolmetrics).1

/-- The `toolMetrics` bookkeeping of one `game_analyst_agent` entrypoint
invocation: `toolmetrics = []` rebinds the module-level accumulator to a
fresh empty list, the turn's delegation calls run against it, and the
returned `AgentResponse.toolMetrics` is its final value (which is also the
module-level value the next invocation starts from).  First component: the
returned `toolMetrics`; second: the module-level state after the invocation. -/
def game_analyst_toolMetrics (outcomes : List InvokeOutcome)
    (toolmetricsGlobal : List PyVal) : List PyVal × List PyVal :=
  let _ := toolmetricsGlobal
  let tm := ([] : List PyVal)
  let tm := runDelegations outcomes tm
  (tm, tm)

/-!
Messages of a turn, as the hooks in `memories.py` see them

A Strands message is a dict `{"role": ..., "content": [block, ...]}` whose
content blocks are dicts: a text block carries a `"text"` key, a tool-result
user message carries a `"toolResult"` key in its first block, a tool-use
assistant message carries a `"toolUse"` key.  The hooks only ever look at a
block's `"text"` (via `.get` or direct indexing) and at whether
`"toolResult"` is among its keys, so a block is modelled by those two
optional fields plus the `toolUse` payload.
-/

/-- One content block of a message: optional `text`, optional `toolResult`
payload, optional `toolUse` payload (payloads opaque to the hooks). -/
structure ContentBlock : Type where
  text : Option String := none
  toolResult : Option String := none
  toolUse : Option String := none
deriving DecidableEq, Repr

instance : Inhabited ContentBlock := ⟨{}⟩

/-- One message of the agent's message list. -/
structure Message : Type where
  role : String
  content : List ContentBlock
deriving DecidableEq, Repr

/-- The first content block of a message (only consulted after the source has
checked the content list is non-empty / subscripted `content[0]`). -/
def Message.firstBlock (m : Message) : ContentBlock :=
  m.content.headD default

/-!
The hook `LTMemoryHookProvider.save_memories` (memories.py):

    messages = event.agent.messages
    if len(messages) >= 2:
        user_msg = None
        assistant_msg = None
        for msg in reversed(messages):
            if not msg.get("content") or len(msg["content"]) == 0:
                continue
            if msg["role"] == "assistant" and not assistant_msg:
                assistant_msg = msg["content"][0].get("text")
            elif msg["role"] == "user" and not user_msg:
                if "toolResult" not in msg["content"][0]:
                    user_msg = msg["content"][0].get("text")
                if user_msg:
                    break
        if user_msg and assistant_msg:
            actor_id = ...; session_id = ...
            if not actor_id or not session_id: return
            self.client.create_event(..., messages=[(user_msg, "USER"), (assistant_msg, "ASSISTANT")])
-/

/-- The reverse scan of `save_memories`: walks the (already reversed) message
list carrying the current `user_msg` / `assistant_msg` bindings, stopping
early (`break`) when a truthy `user_msg` has just been assigned. -/
def scanForPair : List Message → Option String → Option String →
    Option String × Option String
  | [], u, a => (u, a)
  | m :: rest, u, a =>
    if m.content.isEmpty = true then scanForPair rest u a
    else if m.role = "assistant" ∧ truthy a = false then
      scanForPair rest u m.firstBlock.text
    else if m.role = "user" ∧ truthy u = false then
      let u' := if m.firstBlock.toolResult = none then m.firstBlock.text else u
      if truthy u' = true then (u', a) else scanForPair rest u' a
    else scanForPair rest u a

/-- `LTMemoryHookProvider.save_memories`: the `create_event` request it issues
(the `(text, role)` pairs), or `none` when it returns without persisting
(short message list, missing pair, or missing actor/session identifiers).
Store exceptions are handled separately (`ltHookRuns`): they are caught by the
surrounding `try`, so they change nothing about what was requested. -/
def save_memories (actor_id session_id : Option String)
    (messages : List Message) : Option (List (String × String)) :=
  if messages.length ≥ 2 then
    let (user_msg, assistant_msg) := scanForPair messages.reverse none none
    if truthy user_msg && truthy assistant_msg then
      if truthy actor_id && truthy session_id then
        some [(user_msg.getD "", "USER"), (assistant_msg.getD "", "ASSISTANT")]
      else none
    else none
  else none

/-- A user message the claim calls a *true user message*: role `user`,
non-empty content, and no `toolResult` key in its first block. -/
def isTrueUser (m : Message) : Bool :=
  decide (m.role = "user" ∧ m.content.isEmpty = false ∧
    m.firstBlock.toolResult = none)

/-- Well-formedness of a turn's message, as the framework produces them: the
content list is non-empty, and a user message is either a tool result or a
genuine prompt with non-empty text in its first block. -/
def messageWF (m : Message) : Prop :=
  ¬m.content.isEmpty = true ∧
    (m.role = "user" → m.firstBlock.toolResult = none →
      ∃ s : String, m.firstBlock.text = some s ∧ ¬s.isEmpty = true)

instance (m : Message) : Decidable (messageWF m) := by
  unfold messageWF
  exact instDecidableAnd

/-!
The hook provider `ShortTermMemoryHook` (memories.py):

`on_agent_initialized` loads the last 5 turns from the short-term store and
appends them to the system prompt; `on_message_added` writes the newest
message of the list to the live session log.  Store calls may raise; both
hook bodies are wrapped in `try/except` that logs and returns.
-/

/-- One message of a stored conversation turn, as returned by
`get_last_k_turns`: a dict with a `role` and a `content.text`. -/
structure StoredMessage : Type where
  role : String
  text : String
deriving DecidableEq, Repr

/-- A stored conversation turn: the store returns each turn as a list of
role-tagged messages. -/
def StoredTurn : Type := List StoredMessage

/-- Python's `str.title()` restricted to what the hook feeds it (a lowercased
role word, possibly several space-separated words): capitalise each word. -/
def pyTitle (s : String) : String :=
  String.intercalate " " ((s.splitOn " ").map String.capitalize)

/-- The role-labelled line `f"{role.title()}: {content}"` built from a stored
message, after `role = message['role'].lower()`. -/
def formatStoredMessage (m : StoredMessage) : String :=
  pyTitle m.role.toLower ++ ": " ++ m.text

/-- A memory-store operation requested by a hook, recorded for the theorems
about which operations run. -/
inductive StoreOp : Type where
  | getLastKTurns (memory_id actor_id session_id : String) (k : Nat)
  | createEvent (memory_id actor_id session_id : String)
      (messages : List (String × String))
deriving DecidableEq, Repr

/-- `ShortTermMemoryHook.on_agent_initialized`: given the store's behaviour
for the `get_last_k_turns` call (`.ok turns` in the store's order — most
recent k turns, chronologically — or `.error e` when the store raises), the
agent-state identifiers and the current system prompt, returns the store
operations issued and the resulting system prompt.  The body is inside
`try/except Exception`: a raising store is caught and the prompt left
unchanged; missing identifiers return before any store call. -/
def on_agent_initialized (store : Except String (List StoredTurn))
    (memory_id : String) (actor_id session_id : Option String)
    (system_prompt : String) : List StoreOp × String :=
  if !(truthy actor_id && truthy session_id) then ([], system_prompt)
  else
    let op := StoreOp.getLastKTurns memory_id (actor_id.getD "")
      (session_id.getD "") 5
    match store with
    | .error _ => ([op], system_prompt)
    | .ok recent_turns =>
      if recent_turns.isEmpty then ([op], system_prompt)
      else
        let context_messages :=
          (recent_turns.flatMap (fun turn => turn)).map formatStoredMessage
        let context := String.intercalate "\n" context_messages
        ([op], system_prompt ++ "\n\nRecent conversation history:\n" ++ context
          ++ "\n\nContinue the conversation naturally based on this context.")

/-- `ShortTermMemoryHook.on_message_added`: builds the `create_event` request
for the newest message via `messages[-1]["content"][0]["text"]` — direct
subscripting, so a last message whose first content block lacks a `"text"`
key (a tool-use or tool-result message) raises `KeyError`, which the
surrounding `try/except` catches: no event is created.  Returns the
`create_event` request issued, or `none` when the hook returns without one
(missing identifiers, empty message list, or the `KeyError` path). -/
def on_message_added (memory_id : String) (actor_id session_id : Option String)
    (messages : List Message) : Option StoreOp :=
  if !(truthy actor_id && truthy session_id) then none
  else
    match messages.getLast? with
    | none => none
    | some last =>
      match last.content.head? with
      | none => none
      | some block =>
        match block.text with
        | none => none
        | some text =>
          some (StoreOp.createEvent memory_id (actor_id.getD "")
            (session_id.getD "") [(text, last.role)])

/-!
Entrypoint response shaping.

Every entrypoint wraps the agent call in `try/except`:

* `game_analyst_agent` (with memory):
  success `{"response": ..., "metrics": ..., "toolMetrics": toolmetrics}`,
  failure `return {"error": str(e)}`;
* `game_analyst_agent` (basic): same success shape,
  failure `return f"error {e}"`;
* the six specialists (`lore_agent`, `gameplay_agent`, `strategy_agent`,
  basic and with-memory): success `{"response": ..., "metrics": ...}`,
  failure `return f"error {e}"`.
-/

/-- Outcome of the guarded region of an entrypoint (`response = agent(user_input)`
and the response-shaping reads on it): the final answer text and metrics
summary, or the exception that escaped the agent call. -/
inductive AgentCallOutcome : Type where
  | ok (text : String) (metrics : PyVal)
  | raise (e : String)

/-- Response shaping of the with-memory `game_analyst_agent` entrypoint. -/
def game_analyst_result (outcome : AgentCallOutcome) (toolmetrics : List PyVal) :
    PyVal :=
  match outcome with
  | .ok text metrics => .dict [("response", .str text), ("metrics", metrics),
      ("toolMetrics", .list toolmetrics)]
  | .raise e => .dict [("error", .str e)]

/-- Response shaping of the basic `game_analyst_agent` entrypoint. -/
def game_analyst_basic_result (outcome : AgentCallOutcome)
    (toolmetrics : List PyVal) : PyVal :=
  match outcome with
  | .ok text metrics => .dict [("response", .str text), ("metrics", metrics),
      ("toolMetrics", .list toolmetrics)]
  | .raise e => .str ("error " ++ e)

/-- Response shaping shared by all six specialist entrypoints (`lore_agent`,
`gameplay_agent`, `strategy_agent`; basic and with-memory). -/
def specialist_result (outcome : AgentCallOutcome) : PyVal :=
  match outcome with
  | .ok text metrics => .dict [("response", .str text), ("metrics", metrics)]
  | .raise e => .str ("error " ++ e)

/-!
Knowledge-base client lifecycle of a specialist entrypoint

Each specialist entrypoint constructs a fresh `MCPClient` inside the
entrypoint body and enters `with kb_client:`; tool listing
(`list_tools_sync`) and the model call run inside the block.  Python's
`with` semantics: `__enter__` on entry, `__exit__` on every exit of the
block, normal or raising; a raise then propagates to the entrypoint's
`except`, which returns the "error ..." string.
-/

/-- Observable connection events of one knowledge-base client, tagged with the
identity of the client object. -/
inductive ConnEvent : Type where
  | acquire (id : Nat)
  | close (id : Nat)
deriving DecidableEq, Repr

/-- Python's `with client: body` over a client identified by `id`: the enter
event, then the body's events, then the exit event — emitted on the normal
and the raising path alike — with the body's outcome passed through. -/
def withClient {α : Type} (id : Nat) (body : Except String α) :
    List ConnEvent × Except String α :=
  ([ConnEvent.acquire id] ++ [ConnEvent.close id], body)

/-- One specialist entrypoint invocation, connection-lifecycle view: a fresh
client is constructed from the process's allocation counter (object identity
`cnt`), the `with` block runs the body (tool listing plus agent call, which
may raise), and the entrypoint shapes the result.  Returns the connection
events, the shaped response, and the next allocation counter. -/
def specialist_invocation (cnt : Nat)
    (body : Except String (String × PyVal)) :
    (List ConnEvent × PyVal) × Nat :=
  let connId := cnt
  let (events, result) := withClient connId body
  let shaped := specialist_result
    (match result with
     | .ok (text, metrics) => .ok text metrics
     | .error e => .raise e)
  ((events, shaped), cnt + 1)

/-!
Long-term memory configuration of the with-memory specialists

From `lore_agent.py`, `gameplay_agent.py`, `strategy_agent.py`
(with-memory variants): each reads `user_id` and `project_id` from the
payload (with defaults), then configures both the
`AgentCoreMemoryToolProvider` (retrieval) and the agent state consumed by
`LTMemoryHookProvider` (persistence) from `project_id` alone.
-/

/-- The invocation payload fields a specialist's memory setup reads
(`payload.get(key, default)`), plus the runtime-supplied session id. -/
structure SpecialistPayload : Type where
  user_id : Option String := none
  project_id : Option String := none
  session_id : String
deriving DecidableEq, Repr

/-- The long-term memory configuration a with-memory specialist builds:
the tool provider's actor and namespace (retrieval side) and the agent-state
actor the persistence hook reads. -/
structure MemoryConfig : Type where
  memory_id : String
  provider_actor_id : String
  provider_namespace : String
  state_actor_id : String
deriving DecidableEq, Repr

/-- Memory configuration of `lore_agent` (with memory). -/
def lore_memory_config (payload : SpecialistPayload) : MemoryConfig :=
  let project_id := payload.project_id.getD "new-world-aternum"
  { memory_id := "Project_lore_78f09820-iidpdZ4wfj"
    provider_actor_id := project_id
    provider_namespace := "project/" ++ project_id ++ "/semantic"
    state_actor_id := project_id }

/-- Memory configuration of `strategy_agent` (with memory). -/
def strategy_memory_config (payload : SpecialistPayload) : MemoryConfig :=
  let project_id := payload.project_id.getD "new-world-aternum"
  { memory_id := "Project_strategy_3443cbe2-0vOWxMHl4Y"
    provider_actor_id := project_id
    provider_namespace := "project/" ++ project_id ++ "/semantic"
    state_actor_id := project_id }

/-- Memory configuration of `gameplay_agent` (with memory); note the
namespace has an extra `gameplay/` segment. -/
def gameplay_memory_config (payload : SpecialistPayload) : MemoryConfig :=
  let project_id := payload.project_id.getD "new-world-aternum"
  { memory_id := "Project_gameplay_597edeef-XOt1OmF0Zd"
    provider_actor_id := project_id
    provider_namespace := "project/gameplay/" ++ project_id ++ "/semantic"
    state_actor_id := project_id }

/-!
One orchestrator turn, memory-lifecycle view.

The `Agent` fires `AgentInitializedEvent` at construction (before
`agent(user_input)` runs), `MessageAddedEvent` per added message, and
`AfterInvocationEvent` after the final message; every hook body catches its
own exceptions, so the answer production depends on the memory store only
through the prompt augmentation. -/

/-- Answer production of one orchestrator turn as a function of the memory
oracles: the short-term load (possibly raising) runs first and may augment
the system prompt; the opaque model exchange then produces the answer from
the augmented prompt; the post-turn write outcomes (`writeOutcomes`, one per
attempted `create_event`, possibly raising) are caught inside the hooks and
never reach this path, so the turn always yields `.ok` of the model's
answer. -/
def turnAnswer (store : Except String (List StoredTurn))
    (writeOutcomes : List (Except String Unit)) (memory_id : String)
    (actor_id session_id : Option String) (system_prompt : String)
    (model : String → String) : Except String String :=
  let (_, prompt) :=
    on_agent_initialized store memory_id actor_id session_id system_prompt
  let _ := writeOutcomes
  .ok (model prompt)

/-!
Sample values used by witness theorems.
-/

/-- A well-formed specialist success envelope. -/
def sampleEnvelope (tag : String) : PyVal :=
  .dict [("metrics", .str ("metrics-" ++ tag)), ("response", .str ("answer-" ++ tag))]

/-- Delegation outcomes of a sample first invocation: one success, one
transport failure, one specialist failure string. -/
def sampleOutcomes₁ : List InvokeOutcome :=
  [.body (sampleEnvelope "a"), .raised "timeout", .body (.str "error boom")]

/-- Delegation outcomes of a sample second invocation: two successes. -/
def sampleOutcomes₂ : List InvokeOutcome :=
  [.body (sampleEnvelope "b"), .body (sampleEnvelope "c")]

/-- A sample completed turn: user prompt, assistant tool use, tool result,
final assistant answer. -/
def sampleMessages : List Message :=
  [ { role := "user", content := [{ text := some "What about swords?" }] },
    { role := "assistant", content := [{ toolUse := some "get_lore_agent" }] },
    { role := "user", content := [{ toolResult := some "lore payload" }] },
    { role := "assistant", content := [{ text := some "Swords are fine." }] } ]

/-- A sample short-term store content: two turns of one message each. -/
def sampleTurns : List StoredTurn :=
  [ [ { role := "USER", text := "hi" }, { role := "ASSISTANT", text := "hello" } ],
    [ { role := "USER", text := "more?" }, { role := "ASSISTANT", text := "sure" } ] ]

/-!
Lemmas about the delegation accumulator.
-/

theorem delegationTool_fst (o : InvokeOutcome) (tm : List PyVal) :
    (delegationTool o tm).1 = tm ++ (appendedMetric o).toList := by
  cases o with
  | raised e => simp [delegationTool, appendedMetric]
  | body v =>
    cases h : v.index "metrics" with
    | error e => simp [delegationTool, appendedMetric, h]
    | ok m =>
      cases h2 : v.index "response" <;>
        simp [delegationTool, appendedMetric, h, h2]

theorem runDelegations_eq (outcomes : List InvokeOutcome) (tm : List PyVal) :
    runDelegations outcomes tm = tm ++ outcomes.filterMap appendedMetric := by
  induction outcomes generalizing tm with
  | nil => simp [runDelegations]
  | cons o rest ih =>
    rw [runDelegations, ih, delegationTool_fst]
    cases h : appendedMetric o <;>
      simp [List.filterMap_cons, h, List.append_assoc]

theorem appendedMetric_eq_successMetric (o : InvokeOutcome)
    (h : specialistShaped o) : appendedMetric o = successMetric o := by
  cases o with
  | raised e => rfl
  | body v =>
    unfold specialistShaped at h
    cases hm : v.index "metrics" with
    | error e =>
      simp [appendedMetric, successMetric, delegationSucceeds, delegationTool,
        hm, exOk]
    | ok m =>
      have hr := h (by simp [hm, exOk])
      cases hr2 : v.index "response" with
      | error e => rw [hr2] at hr; simp [exOk] at hr
      | ok r =>
        simp [appendedMetric, successMetric, delegationSucceeds, delegationTool,
          hm, hr2, exOk]

theorem successMetric_isSome (o : InvokeOutcome) :
    (successMetric o).isSome = delegationSucceeds o := by
  cases o with
  | raised e => rfl
  | body v =>
    cases hm : v.index "metrics" with
    | error e =>
      simp [successMetric, delegationSucceeds, delegationTool, appendedMetric,
        hm, exOk]
    | ok m =>
      cases hr : v.index "response" <;>
        simp [successMetric, delegationSucceeds, delegationTool, appendedMetric,
          hm, hr, exOk]

theorem length_filterMap_successMetric (l : List InvokeOutcome) :
    (l.filterMap successMetric).length = l.countP delegationSucceeds := by
  induction l with
  | nil => rfl
  | cons o rest ih =>
    rw [List.filterMap_cons, List.countP_cons]
    have h := successMetric_isSome o
    cases hs : successMetric o with
    | none =>
      rw [hs] at h
      simp [← h, ih]
    | some m =>
      rw [hs] at h
      simp [← h, ih]

theorem filterMap_appended_eq_success (l : List InvokeOutcome)
    (h : ∀ o ∈ l, specialistShaped o) :
    l.filterMap appendedMetric = l.filterMap successMetric := by
  induction l with
  | nil => rfl
  | cons o rest ih =>
    rw [List.filterMap_cons, List.filterMap_cons,
      appendedMetric_eq_successMetric o (h o (by simp)),
      ih (fun x hx => h x (by simp [hx]))]

/-- Claim C1: for every orchestrator invocation of `game_analyst_agent`, the
`toolmetrics` accumulator is empty at the start of the invocation (whatever
the module-level state was), each successful delegation call appends exactly
one metrics record, and the returned `toolMetrics` has length equal to the
number of delegation calls that completed successfully during that
invocation; across two sequential invocations, the second invocation's
`toolMetrics` is exactly the metrics of its own successful calls, so no
record of the first invocation leaks into it.  (The delegation replies are
those the specialist entrypoints can produce, `specialistShaped`.) -/
theorem c1_toolMetrics_per_invocation
    (outcomes₁ outcomes₂ : List InvokeOutcome) (g : List PyVal)
    (h₁ : ∀ o ∈ outcomes₁, specialistShaped o)
    (h₂ : ∀ o ∈ outcomes₂, specialistShaped o) :
    (game_analyst_toolMetrics [] g).1 = [] ∧
    (∀ o tm, delegationSucceeds o = true →
      ∃ m, appendedMetric o = some m ∧ (delegationTool o tm).1 = tm ++ [m]) ∧
    (game_analyst_toolMetrics outcomes₁ g).1.length
      = outcomes₁.countP delegationSucceeds ∧
    (game_analyst_toolMetrics outcomes₂
        (game_analyst_toolMetrics outcomes₁ g).2).1
      = outcomes₂.filterMap successMetric ∧
    (∀ m ∈ (game_analyst_toolMetrics outcomes₁ g).1,
      m ∉ outcomes₂.filterMap successMetric →
      m ∉ (game_analyst_toolMetrics outcomes₂
        (game_analyst_toolMetrics outcomes₁ g).2).1) := by
  have key : ∀ (outs : List InvokeOutcome) (st : List PyVal),
      (∀ o ∈ outs, specialistShaped o) →
      (game_analyst_toolMetrics outs st).1 = outs.filterMap successMetric := by
    intro outs st h
    simp only [game_analyst_toolMetrics]
    rw [runDelegations_eq, filterMap_appended_eq_success outs h]
    simp
  refine ⟨by simp [game_analyst_toolMetrics, runDelegations], ?_, ?_, ?_, ?_⟩
  · intro o tm hs
    have hsome : (successMetric o).isSome = true := by
      rw [successMetric_isSome]; exact hs
    rcases Option.isSome_iff_exists.mp hsome with ⟨m, hm⟩
    have happ : appendedMetric o = some m := by
      unfold successMetric at hm
      rw [hs] at hm
      simpa using hm
    exact ⟨m, happ, by rw [delegationTool_fst, happ]; rfl⟩
  · rw [key outcomes₁ g h₁, length_filterMap_successMetric]
  · exact key outcomes₂ _ h₂
  · intro m _ hnot
    rw [key outcomes₂ _ h₂]
    exact hnot

/-- Witness for C1: the theorem applied to two concrete sequential
invocations: the first with one successful, one raising and one
malformed-reply delegation, the second with two successful delegations. -/
theorem c1_toolMetrics_per_invocation_witness :
    ((∀ o ∈ sampleOutcomes₁, specialistShaped o) ∧
     (∀ o ∈ sampleOutcomes₂, specialistShaped o)) ∧
    ((game_analyst_toolMetrics [] []).1 = [] ∧
     (∀ o tm, delegationSucceeds o = true →
       ∃ m, appendedMetric o = some m ∧ (delegationTool o tm).1 = tm ++ [m]) ∧
     (game_analyst_toolMetrics sampleOutcomes₁ []).1.length
       = sampleOutcomes₁.countP delegationSucceeds ∧
     (game_analyst_toolMetrics sampleOutcomes₂
         (game_analyst_toolMetrics sampleOutcomes₁ []).2).1
       = sampleOutcomes₂.filterMap successMetric ∧
     (∀ m ∈ (game_analyst_toolMetrics sampleOutcomes₁ []).1,
       m ∉ sampleOutcomes₂.filterMap successMetric →
       m ∉ (game_analyst_toolMetrics sampleOutcomes₂
         (game_analyst_toolMetrics sampleOutcomes₁ []).2).1)) := by
  have h₁ : ∀ o ∈ sampleOutcomes₁, specialistShaped o := by decide
  have h₂ : ∀ o ∈ sampleOutcomes₂, specialistShaped o := by decide
  exact ⟨⟨h₁, h₂⟩, c1_toolMetrics_per_invocation sampleOutcomes₁ sampleOutcomes₂ [] h₁ h₂⟩

/-- Claim C6: for every successful delegation tool call, the value returned
to the underlying model is exactly the decoded `response` field, and the
decoded `metrics` record goes only to the per-invocation accumulator — the
tool's whole observable effect is `(toolmetrics ++ [metrics], return response)`. -/
theorem c6_tool_returns_text_only (v m r : PyVal) (tm : List PyVal)
    (hm : v.index "metrics" = .ok m) (hr : v.index "response" = .ok r) :
    delegationTool (.body v) tm = (tm ++ [m], .ok r) := by
  simp [delegationTool, hm, hr]

/-- Witness for C6: the tool applied to a concrete well-formed envelope
returns exactly the answer text and appends exactly the metrics record. -/
theorem c6_tool_returns_text_only_witness :
    (sampleEnvelope "a").index "metrics" = .ok (.str "metrics-a") ∧
    (sampleEnvelope "a").index "response" = .ok (.str "answer-a") ∧
    delegationTool (.body (sampleEnvelope "a")) [] =
      ([.str "metrics-a"], .ok (.str "answer-a")) :=
  ⟨rfl, rfl, c6_tool_returns_text_only (sampleEnvelope "a") _ _ [] rfl rfl⟩

/-- Counterexample to C3: fed the specialist's plain-string failure shape,
the delegation tool raises the extraction `TypeError` — its outcome is a
propagating exception, not a typed error result — and fed an envelope whose
`response` is empty, it returns the empty answer unchanged, so the answer is
not "trusted only when non-empty". -/
theorem c3_counterexample :
    delegationTool (.body (.str "error boom")) [] =
      ([], .error "TypeError: string indices must be integers") ∧
    delegationTool
      (.body (.dict [("metrics", .str "m"), ("response", .str "")])) [] =
      ([.str "m"], .ok (.str "")) :=
  ⟨rfl, rfl⟩

/-- Claim C3 as amended: on a malformed specialist reply (not a dict carrying
both `metrics` and `response`), the delegation tool raises the extraction
error (`TypeError`/`KeyError`), which propagates out of the tool function —
no typed error result is built; and there is no emptiness check: whenever
the envelope carries both fields, the `response` value is returned as-is,
even when empty. -/
theorem c3_extraction_error_propagates (v : PyVal) (tm : List PyVal) :
    (¬(exOk (v.index "metrics") = true ∧ exOk (v.index "response") = true) →
      ∃ e, (delegationTool (.body v) tm).2 = .error e) ∧
    (∀ m r, v.index "metrics" = .ok m → v.index "response" = .ok r →
      (delegationTool (.body v) tm).2 = .ok r) := by
  constructor
  · intro h
    cases hm : v.index "metrics" with
    | error e => exact ⟨e, by simp [delegationTool, hm]⟩
    | ok m =>
      cases hr : v.index "response" with
      | error e => exact ⟨e, by simp [delegationTool, hm, hr]⟩
      | ok r => exact absurd ⟨by simp [hm, exOk], by simp [hr, exOk]⟩ h
  · intro m r hm hr
    simp [delegationTool, hm, hr]

/-- Witness for the amended C3: the malformed plain-string reply makes the
tool raise, and an envelope with an empty answer is returned as-is. -/
theorem c3_extraction_error_propagates_witness :
    (∃ e, (delegationTool (.body (.str "error boom")) []).2 = .error e) ∧
    (delegationTool
      (.body (.dict [("metrics", .str "m"), ("response", .str "")])) []).2 =
      .ok (.str "") :=
  ⟨(c3_extraction_error_propagates (.str "error boom") []).1 (by decide),
   (c3_extraction_error_propagates
      (.dict [("metrics", .str "m"), ("response", .str "")]) []).2
      (.str "m") (.str "") rfl rfl⟩

/-- Claim C5: every top-level entrypoint converts an exception escaping the
agent call into the documented failure shape — the with-memory orchestrator
into the JSON object with an `error` field, the basic orchestrator and every
specialist into the plain string `"error "` followed by the exception text —
and on success returns an object carrying at least `response` and `metrics`. -/
theorem c5_entrypoint_failure_shapes :
    (∀ e tm, game_analyst_result (.raise e) tm = .dict [("error", .str e)]) ∧
    (∀ e tm, game_analyst_basic_result (.raise e) tm = .str ("error " ++ e)) ∧
    (∀ e, specialist_result (.raise e) = .str ("error " ++ e)) ∧
    (∀ t m tm,
      (game_analyst_result (.ok t m) tm).index "response" = .ok (.str t) ∧
      (game_analyst_result (.ok t m) tm).index "metrics" = .ok m) ∧
    (∀ t m tm,
      (game_analyst_basic_result (.ok t m) tm).index "response" = .ok (.str t) ∧
      (game_analyst_basic_result (.ok t m) tm).index "metrics" = .ok m) ∧
    (∀ t m,
      (specialist_result (.ok t m)).index "response" = .ok (.str t) ∧
      (specialist_result (.ok t m)).index "metrics" = .ok m) :=
  ⟨fun _ _ => rfl, fun _ _ => rfl, fun _ => rfl,
   fun _ _ _ => ⟨rfl, rfl⟩, fun _ _ _ => ⟨rfl, rfl⟩, fun _ _ => ⟨rfl, rfl⟩⟩

/-- Claim C9: every specialist invocation acquires its knowledge-base client
fresh inside the scoped `with` block and closes it on every path — the
connection trace is exactly one acquire followed by one close of the same
fresh id, also when tool listing or the model call raises (in which case the
entrypoint still returns the error shape); and two sequential invocations
never share a connection id. -/
theorem c9_connection_lifecycle :
    (∀ (cnt : Nat) (body : Except String (String × PyVal)),
      ((specialist_invocation cnt body).1).1 =
        [ConnEvent.acquire cnt, ConnEvent.close cnt]) ∧
    (∀ (cnt : Nat) (e : String),
      ((specialist_invocation cnt (.error e)).1).1 =
        [ConnEvent.acquire cnt, ConnEvent.close cnt] ∧
      ((specialist_invocation cnt (.error e)).1).2 = .str ("error " ++ e)) ∧
    (∀ (cnt : Nat) (body₁ body₂ : Except String (String × PyVal)) (id : Nat),
      ConnEvent.acquire id ∈ ((specialist_invocation cnt body₁).1).1 →
      ConnEvent.acquire id ∉
        ((specialist_invocation (specialist_invocation cnt body₁).2
          body₂).1).1) := by
  refine ⟨fun cnt body => rfl, fun cnt e => ⟨rfl, rfl⟩, ?_⟩
  intro cnt body₁ body₂ id h₁ h₂
  simp [specialist_invocation, withClient] at h₁ h₂
  omega

/-- Counterexample to C10: the gameplay specialist does not use the
namespace `project/{project_id}/semantic` — at the default project id its
namespace is `project/gameplay/new-world-aternum/semantic`, which differs
from `project/new-world-aternum/semantic` (the namespace the lore and
strategy specialists use). -/
theorem c10_counterexample :
    (gameplay_memory_config { session_id := "s1" }).provider_namespace ≠
      "project/new-world-aternum/semantic" ∧
    (lore_memory_config { session_id := "s1" }).provider_namespace =
      "project/new-world-aternum/semantic" := by
  constructor
  · decide
  · rfl

/-- Claim C10 as amended: for every with-memory specialist invocation (lore,
gameplay, strategy), the actor identifier used for both long-term memory
retrieval (the tool provider) and persistence (the hook's agent-state actor)
is the `project_id`, never the `user_id`; two invocations that differ only
in `user_id` build identical memory configurations, so `user_id` has no
influence on what the specialist stores or retrieves.  The namespace is
`project/{project_id}/semantic` for lore and strategy, and
`project/gameplay/{project_id}/semantic` for gameplay. -/
theorem c10_actor_is_project_id (p₁ p₂ : SpecialistPayload)
    (h : p₁.project_id = p₂.project_id) :
    (lore_memory_config p₁ = lore_memory_config p₂ ∧
     strategy_memory_config p₁ = strategy_memory_config p₂ ∧
     gameplay_memory_config p₁ = gameplay_memory_config p₂) ∧
    (∀ p : SpecialistPayload,
      (lore_memory_config p).provider_actor_id
          = p.project_id.getD "new-world-aternum" ∧
      (lore_memory_config p).state_actor_id
          = p.project_id.getD "new-world-aternum" ∧
      (lore_memory_config p).provider_namespace
          = "project/" ++ p.project_id.getD "new-world-aternum" ++ "/semantic" ∧
      (strategy_memory_config p).provider_actor_id
          = p.project_id.getD "new-world-aternum" ∧
      (strategy_memory_config p).state_actor_id
          = p.project_id.getD "new-world-aternum" ∧
      (strategy_memory_config p).provider_namespace
          = "project/" ++ p.project_id.getD "new-world-aternum" ++ "/semantic" ∧
      (gameplay_memory_config p).provider_actor_id
          = p.project_id.getD "new-world-aternum" ∧
      (gameplay_memory_config p).state_actor_id
          = p.project_id.getD "new-world-aternum" ∧
      (gameplay_memory_config p).provider_namespace
          = "project/gameplay/" ++ p.project_id.getD "new-world-aternum"
              ++ "/semantic") := by
  refine ⟨⟨?_, ?_, ?_⟩, ?_⟩
  · simp [lore_memory_config, h]
  · simp [strategy_memory_config, h]
  · simp [gameplay_memory_config, h]
  · intro p
    refine ⟨rfl, rfl, rfl, rfl, rfl, rfl, rfl, rfl, rfl⟩

/-- Witness for the amended C10: two concrete payloads differing only in
`user_id` yield identical lore configurations, and the actor of that
configuration is the project id. -/
theorem c10_actor_is_project_id_witness :
    lore_memory_config
        { user_id := some "alice", project_id := some "p7", session_id := "s" } =
      lore_memory_config
        { user_id := some "bob", project_id := some "p7", session_id := "s" } ∧
    (lore_memory_config
        { user_id := some "alice", project_id := some "p7", session_id := "s" }
      ).provider_actor_id = "p7" :=
  ⟨(c10_actor_is_project_id
      { user_id := some "alice", project_id := some "p7", session_id := "s" }
      { user_id := some "bob", project_id := some "p7", session_id := "s" }
      rfl).1.1,
   rfl⟩

/-- Claim C7: with actor and session present, the short-term pre-turn load
issues exactly one `get_last_k_turns` read with k = 5 for that pair and
appends the stored turns — each message rendered as the role-labelled line
`Role: text`, in the store's (chronological) order — to the system prompt;
the model call of the turn then receives that augmented prompt.  When the
store returns no turns, the prompt is left unchanged and the turn proceeds. -/
theorem c7_short_term_preload (turns : List StoredTurn)
    (memory_id actor sess base : String) (model : String → String)
    (writeOutcomes : List (Except String Unit))
    (hactor : ¬actor.isEmpty = true) (hsess : ¬sess.isEmpty = true) :
    (turns ≠ [] →
      on_agent_initialized (.ok turns) memory_id (some actor) (some sess) base =
        ([StoreOp.getLastKTurns memory_id actor sess 5],
         base ++ "\n\nRecent conversation history:\n" ++
           String.intercalate "\n"
             ((turns.flatMap (fun t => t)).map formatStoredMessage) ++
           "\n\nContinue the conversation naturally based on this context.")) ∧
    (on_agent_initialized (.ok []) memory_id (some actor) (some sess) base =
      ([StoreOp.getLastKTurns memory_id actor sess 5], base)) ∧
    (turnAnswer (.ok turns) writeOutcomes memory_id (some actor) (some sess)
        base model =
      .ok (model (on_agent_initialized (.ok turns) memory_id (some actor)
        (some sess) base).2)) := by
  refine ⟨?_, ?_, rfl⟩
  · intro hne
    have : turns.isEmpty = false := by
      cases turns with
      | nil => exact absurd rfl hne
      | cons t ts => rfl
    simp [on_agent_initialized, truthy, hactor, hsess, this]
  · simp [on_agent_initialized, truthy, hactor, hsess]

/-- Witness for C7: a concrete two-turn store content for actor `A`,
session `S`: the prompt gains the four role-labelled lines in order. -/
theorem c7_short_term_preload_witness :
    (sampleTurns ≠ [] →
      on_agent_initialized (.ok sampleTurns) "stm" (some "A") (some "S") "BASE" =
        ([StoreOp.getLastKTurns "stm" "A" "S" 5],
         "BASE" ++ "\n\nRecent conversation history:\n" ++
           String.intercalate "\n"
             ((sampleTurns.flatMap (fun t => t)).map formatStoredMessage) ++
           "\n\nContinue the conversation naturally based on this context.")) ∧
    (on_agent_initialized (.ok []) "stm" (some "A") (some "S") "BASE" =
      ([StoreOp.getLastKTurns "stm" "A" "S" 5], "BASE")) ∧
    (turnAnswer (.ok sampleTurns) [] "stm" (some "A") (some "S")
        "BASE" (fun p => p) =
      .ok (on_agent_initialized (.ok sampleTurns) "stm" (some "A")
        (some "S") "BASE").2) :=
  c7_short_term_preload sampleTurns "stm" "A" "S" "BASE" (fun p => p) []
    (by decide) (by decide)

/-- Claim C4: memory unavailability never aborts a turn.  With a missing
actor or session identifier, all three hooks (short-term load, per-message
session log, long-term persist) perform no memory operation; a raising
short-term read leaves the system prompt unchanged; and the turn's answer
production returns normally for every store behaviour, read or write,
because each hook body catches its own exceptions. -/
theorem c4_memory_failures_nonfatal (memory_id base e : String)
    (msgs : List Message) (store : Except String (List StoredTurn))
    (writeOutcomes : List (Except String Unit)) (model : String → String)
    (actor sess : Option String)
    (hmissing : truthy actor = false ∨ truthy sess = false) :
    (on_agent_initialized store memory_id actor sess base = ([], base) ∧
     on_message_added memory_id actor sess msgs = none ∧
     save_memories actor sess msgs = none) ∧
    (∀ a s : String,
      (on_agent_initialized (.error e) memory_id (some a) (some s) base).2
        = base) ∧
    (∀ a s : String, ∃ answer,
      turnAnswer store writeOutcomes memory_id (some a) (some s) base model =
        .ok answer) := by
  have hguard : (truthy actor && truthy sess) = false := by
    rcases hmissing with h | h <;> simp [h]
  refine ⟨⟨?_, ?_, ?_⟩, ?_, ?_⟩
  · simp [on_agent_initialized, hguard]
  · simp [on_message_added, hguard]
  · unfold save_memories
    rcases h2 : scanForPair msgs.reverse none none with ⟨u, a⟩
    simp [hguard, h2]
  · intro a s
    simp only [on_agent_initialized]
    split <;> rfl
  · intro a s
    exact ⟨_, rfl⟩

/-- Witness for C4: a concrete turn with the actor identifier absent and a
raising store: no hook issues a memory operation, the raising read leaves
the prompt `BASE` unchanged, and the turn still returns an answer. -/
theorem c4_memory_failures_nonfatal_witness :
    (truthy none = false ∨ truthy (some "sess") = false) ∧
    ((on_agent_initialized (.error "store down") "stm" none (some "sess")
        "BASE" = ([], "BASE") ∧
      on_message_added "stm" none (some "sess") sampleMessages = none ∧
      save_memories none (some "sess") sampleMessages = none) ∧
     (∀ a s : String,
       (on_agent_initialized (.error "store down") "stm" (some a) (some s)
         "BASE").2 = "BASE") ∧
     (∀ a s : String, ∃ answer,
       turnAnswer (.error "store down") [.error "write failed"] "stm"
         (some a) (some s) "BASE" (fun p => p) = .ok answer)) := by
  have h : truthy none = false ∨ truthy (some "sess") = false := Or.inl rfl
  exact ⟨h, c4_memory_failures_nonfatal "stm" "BASE" "store down"
    sampleMessages (.error "store down") [.error "write failed"]
    (fun p => p) none (some "sess") h⟩

/-- Counterexample to C8: the session-log hook does not append *every* newly
added message — a turn whose newest message is a tool-result user message
(first content block without a `text` key) triggers the `KeyError` path of
`messages[-1]["content"][0]["text"]`, the surrounding `except` catches it,
and no `create_event` is issued. -/
theorem c8_counterexample :
    on_message_added "stm" (some "A") (some "S")
      [ { role := "user", content := [{ text := some "q" }] },
        { role := "user", content := [{ toolResult := some "payload" }] } ]
      = none := rfl

/-- Claim C8 as amended: the session-log hook appends a newly added message
to the live session log via `create_event` — independently of the
end-of-turn long-term persistence — exactly when the message's first content
block carries a `text` field (plain user and assistant messages); a newest
message without one (tool-use or tool-result) raises a `KeyError` inside the
hook, which its `except` catches, and is not logged. -/
theorem c8_session_log_text_only (memory_id actor sess : String)
    (hactor : ¬actor.isEmpty = true) (hsess : ¬sess.isEmpty = true)
    (messages : List Message) (last : Message)
    (hlast : messages.getLast? = some last) :
    (∀ block t, last.content.head? = some block → block.text = some t →
      on_message_added memory_id (some actor) (some sess) messages =
        some (StoreOp.createEvent memory_id actor sess [(t, last.role)])) ∧
    (∀ block, last.content.head? = some block → block.text = none →
      on_message_added memory_id (some actor) (some sess) messages = none) := by
  constructor
  · intro block t hb ht
    simp [on_message_added, truthy, hactor, hsess, hlast, hb, ht]
  · intro block hb ht
    simp [on_message_added, truthy, hactor, hsess, hlast, hb, ht]

/-- Witness for the amended C8: on the sample turn the newest message is the
final assistant text message, and exactly that text is logged. -/
theorem c8_session_log_text_only_witness :
    sampleMessages.getLast? =
      some { role := "assistant", content := [{ text := some "Swords are fine." }] } ∧
    on_message_added "stm" (some "A") (some "S") sampleMessages =
      some (StoreOp.createEvent "stm" "A" "S"
        [("Swords are fine.", "assistant")]) :=
  ⟨rfl,
   (c8_session_log_text_only "stm" "A" "S" (by decide) (by decide)
      sampleMessages
      { role := "assistant", content := [{ text := some "Swords are fine." }] }
      rfl).1
     { text := some "Swords are fine." } "Swords are fine." rfl rfl⟩

/-- After the reverse scan has already bound a truthy assistant text, it
returns the text of the first well-formed non-tool-result user message it
meets (the `break`), or leaves `user_msg` unset when there is none. -/
theorem scanForPair_assistant_found (l : List Message) (a : String)
    (ha : ¬a.isEmpty = true) (hwf : ∀ m ∈ l, messageWF m) :
    scanForPair l none (some a) =
      ((l.find? isTrueUser).bind (fun m => m.firstBlock.text), some a) := by
  induction l with
  | nil => simp [scanForPair]
  | cons m rest ih =>
    obtain ⟨hcont, huser⟩ := hwf m (List.mem_cons_self m rest)
    have hrest := fun x hx => hwf x (List.mem_cons_of_mem m hx)
    have hconte : m.content.isEmpty = false := by
      cases h : m.content.isEmpty
      · rfl
      · exact absurd h hcont
    have htra : truthy (some a) = true := by simp [truthy, ha]
    by_cases hrole : m.role = "user"
    · by_cases htr : m.firstBlock.toolResult = none
      · obtain ⟨s, hs, hse⟩ := huser hrole htr
        have htu : isTrueUser m = true := by
          simp [isTrueUser, hrole, hconte, htr]
        have hse' : s.isEmpty = false := by
          cases h : s.isEmpty
          · rfl
          · exact absurd h hse
        simp [scanForPair, hconte, htra, hrole, htr, truthy, hse',
          List.find?_cons, htu, hs]
      · have htu : isTrueUser m = false := by
          simp [isTrueUser, htr]
        simp [scanForPair, hconte, htra, hrole, htr, truthy,
          List.find?_cons, htu, ih hrest]
    · have htu : isTrueUser m = false := by
        simp [isTrueUser, hrole]
      have hnass : ¬(m.role = "assistant" ∧ truthy (some a) = false) := by
        rintro ⟨-, hfa⟩
        rw [htra] at hfa
        cases hfa
      simp [scanForPair, hconte, hnass, hrole, List.find?_cons, htu, ih hrest]

/-- If the list holds no assistant message, the scan never binds
`assistant_msg`. -/
theorem scanForPair_no_assistant (l : List Message) (u : Option String)
    (hno : ∀ m ∈ l, m.role ≠ "assistant") :
    (scanForPair l u none).2 = none := by
  induction l generalizing u with
  | nil => simp [scanForPair]
  | cons m rest ih =>
    have hm := hno m (List.mem_cons_self m rest)
    have hrest := fun x hx => hno x (List.mem_cons_of_mem m hx)
    have hnass : ¬(m.role = "assistant" ∧ truthy (none : Option String) = false) :=
      fun h => hm h.1
    rw [scanForPair]
    by_cases hcont : m.content.isEmpty = true
    · rw [if_pos hcont]
      exact ih u hrest
    · rw [if_neg hcont, if_neg hnass]
      by_cases hu : m.role = "user" ∧ truthy u = false
      · rw [if_pos hu]
        dsimp only
        split
        · split
          · rfl
          · exact ih _ hrest
        · split
          · rfl
          · exact ih _ hrest
      · rw [if_neg hu]
        exact ih u hrest

/-- Claim C2: on a completed turn — a non-empty message list whose final
message is the assistant's answer (first block text `atext`, non-empty) with
well-formed messages and actor/session present — `save_memories` scans the
list in reverse, pairs the most recent non-tool-result user message's text
with the assistant text, and persists exactly the two-entry event
`[(user_text, USER), (assistant_text, ASSISTANT)]`; when no such user
message exists, nothing is persisted.  In particular a trailing tool-result
user message is never selected as the pair's user side.  Moreover (last
conjunct) a turn without any assistant message persists nothing. -/
theorem c2_save_memories_pairs (rest : List Message) (last : Message)
    (messages : List Message) (hsplit : messages = rest ++ [last])
    (hrole : last.role = "assistant") (atext : String)
    (htext : last.firstBlock.text = some atext) (hne : ¬atext.isEmpty = true)
    (hwf : ∀ m ∈ messages, messageWF m) (actor sess : String)
    (hactor : ¬actor.isEmpty = true) (hsess : ¬sess.isEmpty = true) :
    (save_memories (some actor) (some sess) messages =
      (messages.reverse.find? isTrueUser).map
        (fun um => [(um.firstBlock.text.getD "", "USER"),
                    (atext, "ASSISTANT")])) ∧
    (∀ (msgs : List Message) (a s : Option String),
      (∀ m ∈ msgs, m.role ≠ "assistant") → save_memories a s msgs = none) := by
  constructor
  · obtain ⟨hcont, -⟩ := hwf last (by simp [hsplit])
    have hconte : last.content.isEmpty = false := by
      cases h : last.content.isEmpty
      · rfl
      · exact absurd h hcont
    have hrev : messages.reverse = last :: rest.reverse := by
      simp [hsplit]
    have hwfrev : ∀ m ∈ rest.reverse, messageWF m := by
      intro m hm
      exact hwf m (by simp [hsplit]; left; exact (List.mem_reverse.mp hm))
    have hlastnu : isTrueUser last = false := by
      simp [isTrueUser, hrole]
    have hscan : scanForPair messages.reverse none none =
        ((rest.reverse.find? isTrueUser).bind (fun m => m.firstBlock.text),
         some atext) := by
      rw [hrev]
      have hnass : last.role = "assistant" ∧ truthy (none : Option String) = false :=
        ⟨hrole, rfl⟩
      rw [scanForPair]
      rw [if_neg (by rw [hconte]; exact fun h => nomatch h), if_pos hnass, htext]
      exact scanForPair_assistant_found rest.reverse atext hne hwfrev
    have hfindrev : messages.reverse.find? isTrueUser
        = rest.reverse.find? isTrueUser := by
      rw [hrev, List.find?_cons, hlastnu]
    cases hfind : rest.reverse.find? isTrueUser with
    | none =>
      rw [hfindrev, hfind]
      by_cases hlen : messages.length ≥ 2
      · simp only [save_memories, if_pos hlen, hscan, hfind, Option.bind_none,
          Option.map_none]
        simp [truthy]
      · simp [save_memories, hlen]
    | some um =>
      have hum : um ∈ rest.reverse := List.mem_of_find?_eq_some hfind
      have humt : isTrueUser um = true := List.find?_some hfind
      have humrole : um.role = "user" := by
        simp [isTrueUser] at humt
        exact humt.1
      have humtr : um.firstBlock.toolResult = none := by
        simp [isTrueUser] at humt
        exact humt.2.2
      obtain ⟨-, huser⟩ := hwf um
        (by simp [hsplit]; left; exact List.mem_reverse.mp hum)
      obtain ⟨s, hs, hse⟩ := huser humrole humtr
      have hlen : messages.length ≥ 2 := by
        have : rest ≠ [] := by
          rintro rfl
          simp at hum
        have : 1 ≤ rest.length := List.length_pos.mpr this
        simp [hsplit]
        omega
      rw [hfindrev, hfind]
      simp only [save_memories, if_pos hlen, hscan, hfind, Option.bind_some,
        Option.map_some]
      simp [hs, truthy, hse, hne, hactor, hsess]
  · intro msgs a s hno
    unfold save_memories
    rcases h2 : scanForPair msgs.reverse none none with ⟨u, av⟩
    have : av = none := by
      have := scanForPair_no_assistant msgs.reverse none
        (fun m hm => hno m (List.mem_reverse.mp hm))
      rw [h2] at this
      exact this
    subst this
    simp [h2, truthy]

/-- Witness for C2: the sample turn ends with a tool-result user message
followed by the assistant answer; the persisted event pairs the earlier
genuine user prompt with the assistant answer — never the tool-result
content. -/
theorem c2_save_memories_pairs_witness :
    save_memories (some "A") (some "S") sampleMessages =
      some [("What about swords?", "USER"),
            ("Swords are fine.", "ASSISTANT")] := by
  have h := (c2_save_memories_pairs
    [ { role := "user", content := [{ text := some "What about swords?" }] },
      { role := "assistant", content := [{ toolUse := some "get_lore_agent" }] },
      { role := "user", content := [{ toolResult := some "lore payload" }] } ]
    { role := "assistant", content := [{ text := some "Swords are fine." }] }
    sampleMessages rfl rfl "Swords are fine." rfl (by decide) (by decide)
    "A" "S" (by decide) (by decide)).1
  rw [h]
  rfl

/-- Witness for C9: a concrete raising invocation still closes connection 0,
and the follow-up invocation does not reuse connection 0. -/
theorem c9_connection_lifecycle_witness :
    (ConnEvent.acquire 0 ∈
      ((specialist_invocation 0
        (.error "kb down" : Except String (String × PyVal))).1).1) ∧
    ConnEvent.acquire 0 ∉
      ((specialist_invocation
        (specialist_invocation 0
          (.error "kb down" : Except String (String × PyVal))).2
        (.ok ("t", .str "m"))).1).1 :=
  ⟨by decide,
   c9_connection_lifecycle.2.2 0 (.error "kb down") (.ok ("t", .str "m")) 0
     (by decide)⟩
